import Mathlib

/-!
Verification of the learnopengl tutorial programs.

This file gives a shallow embedding of the three program variants of the
repository (`src/main.cpp`, `src/unnamed/part_000`, `src/unnamed/part_001`)
and settles the specification claims against it.

Modelling conventions:
* every external call (GLFW, GL, writes to standard error) is an event of the
  inductive type `Ev`; a run of a function produces the list of events it
  performs, in source order, including the calls performed by C++ destructors
  at scope exit;
* the behaviour of the external libraries is an oracle `Env`: whether
  `glfwInit` succeeds, whether `glfwCreateWindow` returns a handle, whether the
  GL loader resolves, the compile status the driver reports for the two
  shaders, the status the driver reports for the program object, and, per
  frame, whether the escape key is down and whether the OS delivers a
  window-close event during `glfwPollEvents`;
* `glfwCreateWindow` returns a null handle when GLFW was never initialized,
  so in the model window creation succeeds only when `glfwInit` succeeded and
  the oracle grants the window;
* object handles are issued by a counter threaded through the creation
  functions, mirroring `glGen*`/`glCreate*` returning fresh names;
* the render loop is modelled with a fuel parameter: a run that exhausts its
  fuel is an incomplete execution cut off mid-loop, a run that stops with the
  close flag set is a complete one;
* the vertex data `0.5f, -0.5f, 0.0f, ...` and the clear colour
  `0.2f, 0.3f, 0.3f, 1.0f` are carried as the exact rational values of the
  source literals.
-/

namespace LearnGL

/-- `GL_ARRAY_BUFFER` (0x8892). -/
def glArrayBuffer : Nat := 34962

/-- `GL_ELEMENT_ARRAY_BUFFER` (0x8893). -/
def glElementArrayBuffer : Nat := 34963

/-- `GL_VERTEX_SHADER` (0x8B31). -/
def glVertexShader : Nat := 35633

/-- `GL_FRAGMENT_SHADER` (0x8B30). -/
def glFragmentShader : Nat := 35632

/-- One event per external call the programs perform.  Arguments record what
the call passed (handles, statuses, data) as far as the claims need them. -/
inductive Ev where
  | glfwInitCall
  | windowHint
  | createWindow (ok : Bool)
  | makeContextCurrent
  | gladLoad (ok : Bool)
  | setFbCb (installed : Bool)
  | genBuffers (id : Nat)
  | bindBuffer (target id : Nat)
  | bufferData (target count : Nat) (data : List ℚ)
  | genVertexArrays (id : Nat)
  | bindVertexArray (id : Nat)
  | vertexAttribPointer
  | enableVertexAttribArray
  | createShader (ty id : Nat)
  | shaderSource (id : Nat)
  | compileShader (id : Nat)
  | getShaderiv (id : Nat) (ok : Bool)
  | createProgram (id : Nat)
  | attachShader (pid sid : Nat)
  | linkProgram (pid : Nat)
  | getProgramiv (pid : Nat) (ok : Bool)
  | useProgram (pid : Nat)
  | clearColor (r g b a : ℚ)
  | clearCall
  | drawArrays (first count : Nat)
  | swapBuffers
  | pollEvents
  | getKey (escape : Bool)
  | setShouldClose
  | queryShouldClose (v : Bool)
  | deleteShader (id : Nat)
  | deleteBuffers (id : Nat)
  | deleteVertexArrays (id : Nat)
  | deleteProgram (id : Nat)
  | glfwTerminateCall
  | destroyWindow
  | cerr (msg : String)
deriving DecidableEq, Repr

/-- Oracle for the external libraries: which calls succeed, which statuses the
driver reports, and the per-frame inputs seen by the render loop.  `linkOk` is
the status the driver hands back for the program object when the source reads
it with `glGetProgramiv` (the source passes `GL_COMPILE_STATUS` as the query
name; the model treats the call as the program-status query the tutorial
intends). -/
structure Env where
  glfwInitOk : Bool
  createWindowOk : Bool
  gladOk : Bool
  vertexCompileOk : Bool
  fragmentCompileOk : Bool
  linkOk : Bool
  escPressed : Nat → Bool
  osClose : Nat → Bool

/-- Result of a run of `main`: the exit code, whether the render loop was
entered, and the event trace split at the loop boundaries (`pre` up to loop
entry, `loopEvs` the loop itself, `post` the destructor calls after it). -/
structure MainRes where
  exit : Int
  entered : Bool
  pre : List Ev
  loopEvs : List Ev
  post : List Ev

/-- The full event trace of a run. -/
def MainRes.trace (r : MainRes) : List Ev := r.pre ++ r.loopEvs ++ r.post

/-- `buffer` (main.cpp lines 112-131): a GPU buffer wrapper holding the handle
id, the element count and the stored data. -/
structure buffer where
  id : Nat
  count : Nat
  data : List ℚ
deriving DecidableEq, Repr

/-- `buffer::create` (main.cpp lines 114-120): `glGenBuffers` issues a fresh
handle; the wrapper stores the handle, `data.size()` and the data. -/
def buffer.create (n : Nat) (data : List ℚ) : buffer × Nat × List Ev :=
  (⟨n, data.length, data⟩, n + 1, [Ev.genBuffers n])

/-- `buffer::bind` (main.cpp lines 124-130): binds the handle and re-uploads
the stored data with `glBufferData`; a `const` member on `const` fields, so the
wrapper is returned unchanged. -/
def buffer.bindBuf (target : Nat) (b : buffer) : buffer × List Ev :=
  (b, [Ev.bindBuffer target b.id, Ev.bufferData target b.count b.data])

/-- The closer of the guard returned by `buffer::bind` (main.cpp line 129). -/
def buffer.unbindGuard (target : Nat) : List Ev := [Ev.bindBuffer target 0]

/-- `k` successive `bind` operations on a buffer. -/
def buffer.bindN (target : Nat) : Nat → buffer → buffer
  | 0, b => b
  | k + 1, b => buffer.bindN target k (buffer.bindBuf target b).1

/-- `vertex_array` (main.cpp lines 135-157): handle id and element count. -/
structure vertex_array where
  id : Nat
  count : Nat
deriving DecidableEq, Repr

/-- `vertex_array::create` (main.cpp lines 136-147): creates the vertex buffer,
generates the array, binds it (guard opener), binds and fills the buffer,
declares the attribute layout, then the guards unbind buffer and array in
reverse order at scope exit. -/
def vertex_array.create (n : Nat) (vertices : List ℚ) : vertex_array × Nat × List Ev :=
  let (b, n1, e1) := buffer.create n vertices
  (⟨n1, b.count⟩, n1 + 1,
    e1 ++ [Ev.genVertexArrays n1, Ev.bindVertexArray n1]
       ++ (buffer.bindBuf glArrayBuffer b).2
       ++ [Ev.vertexAttribPointer, Ev.enableVertexAttribArray]
       ++ buffer.unbindGuard glArrayBuffer ++ [Ev.bindVertexArray 0])

/-- The triangle's vertex data (main.cpp lines 304-306). -/
def triangleVertices : List ℚ :=
  [-(1/2), -(1/2), 0, 1/2, -(1/2), 0, 0, 1/2, 0]

/-- State of the render loop: the window's close flag and the frame index
(used to look up the per-frame oracle inputs). -/
structure RS where
  close : Bool
  frame : Nat
deriving DecidableEq, Repr

/-- `process_input` (main.cpp lines 325-331): reads the escape key; when it is
pressed, calls `glfwSetWindowShouldClose(window, true)`. -/
def process_input (env : Env) (s : RS) : RS × List Ev :=
  let esc := env.escPressed s.frame
  (⟨s.close || esc, s.frame⟩,
    Ev.getKey esc :: if esc then [Ev.setShouldClose] else [])

/-- `clear_color_buffer` (main.cpp lines 333-338). -/
def clear_color_buffer : List Ev :=
  [Ev.clearColor (2/10) (3/10) (3/10) 1, Ev.clearCall]

/-- `shape::draw` (main.cpp lines 292-297) expanded through
`shader_pipeline::use` (line 248) and `vertex_array::draw` (lines 150-156):
use the program, bind the array, one draw call, unbind the array. -/
def shape_draw (vaId vaCount pid : Nat) : List Ev :=
  [Ev.useProgram pid, Ev.bindVertexArray vaId,
   Ev.drawArrays 0 vaCount, Ev.bindVertexArray 0]

/-- The body of the render loop (main.cpp lines 345-351): `process_input`,
`clear_color_buffer`, `shape.draw()`, `glfwSwapBuffers`, `glfwPollEvents`.
During `glfwPollEvents` the OS may deliver a close event for the window. -/
def loop_body (env : Env) (vaId vaCount pid : Nat) (s : RS) : RS × List Ev :=
  let (s1, e1) := process_input env s
  (⟨s1.close || env.osClose s.frame, s.frame + 1⟩,
    e1 ++ clear_color_buffer ++ shape_draw vaId vaCount pid
       ++ [Ev.swapBuffers, Ev.pollEvents])

/-- `render_loop` (main.cpp lines 340-353): while the window's close flag is unset,
run the body.  The fuel argument bounds the number of iterations modelled; a
run that stops on the flag is a complete execution of the loop. -/
def render_loop (env : Env) (vaId vaCount pid : Nat) : Nat → RS → RS × List Ev
  | 0, s => (s, [])
  | n + 1, s =>
    if s.close then (s, [Ev.queryShouldClose true])
    else
      let (s1, e1) := loop_body env vaId vaCount pid s
      let (s2, e2) := render_loop env vaId vaCount pid n s1
      (s2, Ev.queryShouldClose false :: (e1 ++ e2))

/-- `shader` (main.cpp lines 185-215): wrapper around a shader handle.  The
compile status the driver will report for it is fixed when the source is
compiled, so it is recorded at creation from the oracle. -/
structure shader where
  id : Nat
  name : String
  compileOk : Bool
deriving DecidableEq, Repr

/-- `shader::create` (main.cpp lines 186-194): `glCreateShader`,
`glShaderSource`, `glCompileShader`; no status check here. -/
def shader.create (ty n : Nat) (name : String) (ok : Bool) : shader × Nat × List Ev :=
  (⟨n, name, ok⟩, n + 1, [Ev.createShader ty n, Ev.shaderSource n, Ev.compileShader n])

/-- `shader::check` (main.cpp lines 198-210): reads `GL_COMPILE_STATUS`; on
failure fetches the info log and prints the diagnostic. -/
def shader.check (s : shader) : Bool × List Ev :=
  (s.compileOk,
    Ev.getShaderiv s.id s.compileOk ::
      if s.compileOk then []
      else [Ev.cerr ("ERROR::SHADER::" ++ s.name ++ "::COMPILATION_FAILED")])

/-- `shader_pipeline` (main.cpp lines 217-250): the program handle, the status
the driver reports for the program object (read back by `check` via
`glGetProgramiv`), and the vector of attached shader wrappers. -/
structure shader_pipeline where
  pid : Nat
  linkOk : Bool
  shaders : List shader
deriving DecidableEq, Repr

/-- `shader_pipeline::create` (main.cpp lines 218-226): `glCreateProgram`,
attach every shader, `glLinkProgram`, keep the shaders. -/
def shader_pipeline.create (n : Nat) (shaders : List shader) (linkOk : Bool) :
    shader_pipeline × Nat × List Ev :=
  (⟨n, linkOk, shaders⟩, n + 1,
    Ev.createProgram n :: ((shaders.map fun s => Ev.attachShader n s.id)
      ++ [Ev.linkProgram n]))

/-- The `std::any_of` over `!s->check()` in `shader_pipeline::check`
(main.cpp line 233): checks shaders left to right and stops at the first
failing one. -/
def anyShaderFails : List shader → Bool × List Ev
  | [] => (false, [])
  | s :: rest =>
    let (ok, e) := shader.check s
    if ok then
      let (b, es) := anyShaderFails rest
      (b, e ++ es)
    else (true, e)

/-- `shader_pipeline::check` (main.cpp lines 229-244): a guard clears the
`shaders` vector at scope exit on every path (line 232); clearing the vector
of `unique_ptr`s runs each shader's destructor, i.e. `glDeleteShader`
(line 213), in element order.  If no shader failed, the program status is read
and reported. -/
def shader_pipeline.check (p : shader_pipeline) : Bool × shader_pipeline × List Ev :=
  let (fail, e1) := anyShaderFails p.shaders
  let cleared : shader_pipeline := ⟨p.pid, p.linkOk, []⟩
  let eDel := p.shaders.map fun s => Ev.deleteShader s.id
  if fail then (false, cleared, e1 ++ eDel)
  else
    (p.linkOk, cleared,
      e1 ++ (Ev.getProgramiv p.pid p.linkOk ::
        if p.linkOk then [] else [Ev.cerr "ERROR::SHADER::PROGRAM::COMPILATION_FAILED"])
         ++ eDel)

/-- `triangle_shader::create` (main.cpp lines 252-275): compiles the vertex and
fragment shaders and links them into a pipeline. -/
def triangle_shader.create (env : Env) (n : Nat) : shader_pipeline × Nat × List Ev :=
  let (vs, n1, e1) := shader.create glVertexShader n "triangle_vertex" env.vertexCompileOk
  let (fs, n2, e2) := shader.create glFragmentShader n1 "triangle_fragment" env.fragmentCompileOk
  let (p, n3, e3) := shader_pipeline.create n2 [vs, fs] env.linkOk
  (p, n3, e1 ++ e2 ++ e3)

/-- `shape<vertex_array>` (main.cpp lines 283-298) as built by
`triangle::create`. -/
structure shape where
  va : vertex_array
  pipeline : shader_pipeline
deriving DecidableEq, Repr

/-- `triangle::create` (main.cpp lines 300-309): the vertex array, then the
shader pipeline. -/
def triangle.create (env : Env) (n : Nat) : shape × Nat × List Ev :=
  let (va, n1, e1) := vertex_array.create n triangleVertices
  let (p, n2, e2) := triangle_shader.create env n1
  (⟨va, p⟩, n2, e1 ++ e2)

/-- `main` of `src/main.cpp` (lines 357-376).  Event order follows the source,
including destructors: the `viewport::initialise(window)` statement (line 368)
discards its result, so the viewport temporary's destructor unregisters the
framebuffer callback at the end of that statement; at function exit `~glfw`
calls `glfwTerminate` only when `glfwInit` had succeeded (lines 47-52); the
`glfw_window`, `glad`, `buffer`, `vertex_array` and `shader_pipeline` wrappers
of this variant have no destructor. -/
def mainCpp (env : Env) (fuel : Nat) : MainRes :=
  let eHints := if env.glfwInitOk
    then [Ev.windowHint, Ev.windowHint, Ev.windowHint, Ev.windowHint] else []
  let eTerm := if env.glfwInitOk then [Ev.glfwTerminateCall] else []
  if env.glfwInitOk && env.createWindowOk then
    let pre1 := Ev.glfwInitCall :: eHints
      ++ [Ev.createWindow true, Ev.makeContextCurrent, Ev.gladLoad env.gladOk]
    if env.gladOk then
      let pre2 := pre1 ++ [Ev.setFbCb true, Ev.setFbCb false]
      let (sh, _, eTri) := triangle.create env 0
      let (ok, shC, eChk) := shader_pipeline.check sh.pipeline
      if ok then
        ⟨0, true, pre2 ++ eTri ++ eChk,
          (render_loop env sh.va.id sh.va.count shC.pid fuel ⟨false, 0⟩).2, eTerm⟩
      else
        ⟨-1, false, pre2 ++ eTri ++ eChk, [], eTerm⟩
    else
      ⟨-1, false, pre1 ++ [Ev.cerr "Failed to initialize GLAD"], [], eTerm⟩
  else
    ⟨-1, false, Ev.glfwInitCall :: eHints
      ++ [Ev.createWindow false, Ev.cerr "Failed to create GLFW window"], [], eTerm⟩

/-- `shader::create` of `src/unnamed/part_001` (lines 182-197): unlike the
main.cpp variant, the compile status is checked inside `create`; on failure the
diagnostic is printed and an empty `unique_ptr` is returned (the failed shader
handle is never deleted — no wrapper owns it). -/
def shaderCreate001 (ty n : Nat) (name : String) (ok : Bool) :
    Option Nat × Nat × List Ev :=
  ((if ok then some n else none), n + 1,
    [Ev.createShader ty n, Ev.shaderSource n, Ev.compileShader n, Ev.getShaderiv n ok]
      ++ (if ok then []
          else [Ev.cerr ("ERROR::SHADER::" ++ name ++ "::COMPILATION_FAILED")]))

/-- `triangle_shader::create` of part_001 (lines 234-257) inlined with
`shader_pipeline::create` (lines 206-224): both shaders are created; if either
is null the pipeline is `nullopt` and no program is created; otherwise the
program is created, linked and its status read.  The local vector of
`unique_ptr`s is destroyed at the end of `triangle_shader::create`, deleting
every successfully created shader in element order. -/
def triangleShader001 (env : Env) (n : Nat) : Option Nat × Nat × List Ev :=
  let (vs, n1, e1) := shaderCreate001 glVertexShader n "triangle_vertex" env.vertexCompileOk
  let (fs, n2, e2) := shaderCreate001 glFragmentShader n1 "triangle_fragment" env.fragmentCompileOk
  match vs, fs with
  | some a, some b =>
    let eLink := [Ev.createProgram n2, Ev.attachShader n2 a, Ev.attachShader n2 b,
                  Ev.linkProgram n2, Ev.getProgramiv n2 env.linkOk]
      ++ (if env.linkOk then []
          else [Ev.cerr "ERROR::SHADER::PROGRAM::COMPILATION_FAILED"])
    ((if env.linkOk then some n2 else none), n2 + 1,
      e1 ++ e2 ++ eLink ++ [Ev.deleteShader a, Ev.deleteShader b])
  | some a, none => (none, n2, e1 ++ e2 ++ [Ev.deleteShader a])
  | none, some b => (none, n2, e1 ++ e2 ++ [Ev.deleteShader b])
  | none, none => (none, n2, e1 ++ e2)

/-- `main` of `src/unnamed/part_001` (lines 339-359).  Each failure stage has
its own code: -1 glfw, -2 window, -3 loader, -4 shape.  Destructors at scope
exit, in reverse declaration order: the viewport (kept alive in a local,
line 351) unregisters the callback, `~glfw_window` destroys the window,
`~glfw` terminates; `glad::initialise` makes the context current itself
(line 81). -/
def main001 (env : Env) (fuel : Nat) : MainRes :=
  if env.glfwInitOk then
    let eInit := [Ev.glfwInitCall, Ev.windowHint, Ev.windowHint, Ev.windowHint, Ev.windowHint]
    if env.createWindowOk then
      let pre1 := eInit ++ [Ev.createWindow true, Ev.makeContextCurrent, Ev.gladLoad env.gladOk]
      if env.gladOk then
        let pre2 := pre1 ++ [Ev.setFbCb true]
        let (va, n1, eVa) := vertex_array.create 0 triangleVertices
        let (pOpt, _, eSh) := triangleShader001 env n1
        match pOpt with
        | some pid =>
          ⟨0, true, pre2 ++ eVa ++ eSh,
            (render_loop env va.id va.count pid fuel ⟨false, 0⟩).2,
            [Ev.setFbCb false, Ev.destroyWindow, Ev.glfwTerminateCall]⟩
        | none =>
          ⟨-4, false, pre2 ++ eVa ++ eSh, [],
            [Ev.setFbCb false, Ev.destroyWindow, Ev.glfwTerminateCall]⟩
      else
        ⟨-3, false, pre1 ++ [Ev.cerr "Failed to initialize GLAD"], [],
          [Ev.destroyWindow, Ev.glfwTerminateCall]⟩
    else
      ⟨-2, false, eInit ++ [Ev.createWindow false, Ev.cerr "Failed to create GLFW window"], [],
        [Ev.glfwTerminateCall]⟩
  else
    ⟨-1, false, [Ev.glfwInitCall, Ev.cerr "Failed to instantiate glfw"], [], []⟩

/-- Events the render loop can emit. -/
def isLoopEv : Ev → Bool
  | Ev.queryShouldClose _ => true
  | Ev.getKey _ => true
  | Ev.setShouldClose => true
  | Ev.clearColor _ _ _ _ => true
  | Ev.clearCall => true
  | Ev.useProgram _ => true
  | Ev.bindVertexArray _ => true
  | Ev.drawArrays _ _ => true
  | Ev.swapBuffers => true
  | Ev.pollEvents => true
  | _ => false

def isGenBuffers : Ev → Bool
  | Ev.genBuffers _ => true
  | _ => false

def isDeleteBuffers : Ev → Bool
  | Ev.deleteBuffers _ => true
  | _ => false

def isGenVertexArrays : Ev → Bool
  | Ev.genVertexArrays _ => true
  | _ => false

def isDeleteVertexArrays : Ev → Bool
  | Ev.deleteVertexArrays _ => true
  | _ => false

def isCreateProgram : Ev → Bool
  | Ev.createProgram _ => true
  | _ => false

def isDeleteProgram : Ev → Bool
  | Ev.deleteProgram _ => true
  | _ => false

def isCreateShader : Ev → Bool
  | Ev.createShader _ _ => true
  | _ => false

def isDeleteShader : Ev → Bool
  | Ev.deleteShader _ => true
  | _ => false

def isGetShaderiv : Ev → Bool
  | Ev.getShaderiv _ _ => true
  | _ => false

def isSetFbCb : Ev → Bool
  | Ev.setFbCb _ => true
  | _ => false

/-- The arguments of the `glfwSetFramebufferSizeCallback` calls of a trace, in
order (`true` = the viewport callback, `false` = `nullptr`). -/
def fbArgs : List Ev → List Bool
  | [] => []
  | Ev.setFbCb b :: rest => b :: fbArgs rest
  | _ :: rest => fbArgs rest

/-- The standard-error lines of a trace, in order. -/
def cerrMsgs : List Ev → List String
  | [] => []
  | Ev.cerr m :: rest => m :: cerrMsgs rest
  | _ :: rest => cerrMsgs rest

/-- A pipeline whose first shader failed to compile but whose program object
reports a good status. -/
def pipeBadVertex : shader_pipeline :=
  ⟨4, true, [⟨2, "triangle_vertex", false⟩, ⟨3, "triangle_fragment", true⟩]⟩

/-- Oracle granting every call, with the escape key held down from the first
frame and no OS close event. -/
def envAllOk : Env := ⟨true, true, true, true, true, true, fun _ => true, fun _ => false⟩

/-- Oracle where `glfwInit` fails; everything else would succeed. -/
def envNoGlfw : Env := ⟨false, true, true, true, true, true, fun _ => true, fun _ => false⟩

/-- Oracle where `glfwCreateWindow` fails; everything else would succeed. -/
def envNoWindow : Env := ⟨true, false, true, true, true, true, fun _ => true, fun _ => false⟩

/-- Oracle where the GL loader fails; everything else would succeed. -/
def envNoGlad : Env := ⟨true, true, false, true, true, true, fun _ => true, fun _ => false⟩

/-- Oracle where the vertex shader fails to compile; everything else would
succeed. -/
def envNoVertex : Env := ⟨true, true, true, false, true, true, fun _ => true, fun _ => false⟩

/-- Oracle with all calls succeeding and the escape key never pressed. -/
def envIdle : Env := ⟨true, true, true, true, true, true, fun _ => false, fun _ => false⟩

/-- The per-iteration event sequence the claim describes, one event per named
step.  Modelled from the spec: "poll input → clear color buffer to a fixed
color → bind program → bind vertex array → issue one ... draw call → swap
buffers → poll OS events", with "nothing else ... done per iteration". -/
def specIterationC5 (esc : Bool) (vaId vaCount pid : Nat) : List Ev :=
  (Ev.getKey esc :: if esc then [Ev.setShouldClose] else [])
    ++ [Ev.clearColor (2/10) (3/10) (3/10) 1, Ev.clearCall,
        Ev.useProgram pid, Ev.bindVertexArray vaId, Ev.drawArrays 0 vaCount,
        Ev.swapBuffers, Ev.pollEvents]

/-- The sequence the code actually performs per iteration: as the claim's, but
`vertex_array::draw` (main.cpp line 155) additionally unbinds the vertex array
(`glBindVertexArray(0)`) after the draw call. -/
def amendedIterationC5 (esc : Bool) (vaId vaCount pid : Nat) : List Ev :=
  (Ev.getKey esc :: if esc then [Ev.setShouldClose] else [])
    ++ [Ev.clearColor (2/10) (3/10) (3/10) 1, Ev.clearCall,
        Ev.useProgram pid, Ev.bindVertexArray vaId, Ev.drawArrays 0 vaCount,
        Ev.bindVertexArray 0, Ev.swapBuffers, Ev.pollEvents]

/-- All six bootstrap stages succeed: `glfwInit`, `glfwCreateWindow`, the GL
loader, both shader compiles, and the program status. -/
def envBootstrapOk (env : Env) : Prop :=
  env.glfwInitOk = true ∧ env.createWindowOk = true ∧ env.gladOk = true ∧
  env.vertexCompileOk = true ∧ env.fragmentCompileOk = true ∧ env.linkOk = true

instance (env : Env) : Decidable (envBootstrapOk env) := by
  unfold envBootstrapOk; infer_instance

/-- `glDeleteShader` calls for one particular handle. -/
def isDeleteShaderId (k : Nat) : Ev → Bool
  | Ev.deleteShader i => i == k
  | _ => false

/-- The pre-loop trace of a run of main.cpp in which every stage succeeds. -/
def preOkCpp : List Ev :=
  [Ev.glfwInitCall, Ev.windowHint, Ev.windowHint, Ev.windowHint, Ev.windowHint,
   Ev.createWindow true, Ev.makeContextCurrent, Ev.gladLoad true,
   Ev.setFbCb true, Ev.setFbCb false,
   Ev.genBuffers 0, Ev.genVertexArrays 1, Ev.bindVertexArray 1,
   Ev.bindBuffer glArrayBuffer 0, Ev.bufferData glArrayBuffer 9 triangleVertices,
   Ev.vertexAttribPointer, Ev.enableVertexAttribArray,
   Ev.bindBuffer glArrayBuffer 0, Ev.bindVertexArray 0,
   Ev.createShader glVertexShader 2, Ev.shaderSource 2, Ev.compileShader 2,
   Ev.createShader glFragmentShader 3, Ev.shaderSource 3, Ev.compileShader 3,
   Ev.createProgram 4, Ev.attachShader 4 2, Ev.attachShader 4 3, Ev.linkProgram 4,
   Ev.getShaderiv 2 true, Ev.getShaderiv 3 true, Ev.getProgramiv 4 true,
   Ev.deleteShader 2, Ev.deleteShader 3]

theorem loop_body_events (env : Env) (a b c : Nat) (s : RS) :
    ((loop_body env a b c s).2).all isLoopEv = true := by
  cases h : env.escPressed s.frame <;>
    simp [loop_body, process_input, clear_color_buffer, shape_draw, h, isLoopEv]

theorem render_loop_stop (env : Env) (a b c n : Nat) (s : RS) (h : s.close = true) :
    render_loop env a b c (n + 1) s = (s, [Ev.queryShouldClose true]) := by
  simp [render_loop, h]

theorem render_loop_go (env : Env) (a b c n : Nat) (s : RS) (h : s.close = false) :
    render_loop env a b c (n + 1) s
      = ((render_loop env a b c n (loop_body env a b c s).1).1,
         Ev.queryShouldClose false ::
           ((loop_body env a b c s).2
             ++ (render_loop env a b c n (loop_body env a b c s).1).2)) := by
  rcases hp : loop_body env a b c s with ⟨s1, e1⟩
  rcases hr : render_loop env a b c n s1 with ⟨s2, e2⟩
  simp [render_loop, h, hp, hr]

theorem render_loop_events (env : Env) (a b c : Nat) :
    ∀ n s, ((render_loop env a b c n s).2).all isLoopEv = true := by
  intro n
  induction n with
  | zero => intro s; simp [render_loop]
  | succ k ih =>
    intro s
    by_cases h : s.close
    · rw [render_loop_stop env a b c k s h]; simp [isLoopEv]
    · have hb := loop_body_events env a b c s
      have hr := ih (loop_body env a b c s).1
      rw [render_loop_go env a b c k s (by simpa using h)]
      simp only [List.all_cons, List.all_append, Bool.and_eq_true]
      exact ⟨rfl, hb, hr⟩

theorem countP_zero_of_loop {p : Ev → Bool} (hdisj : ∀ e, isLoopEv e = true → p e = false)
    {l : List Ev} (hall : l.all isLoopEv = true) : l.countP p = 0 := by
  rw [List.countP_eq_zero]
  intro e he
  have := (List.all_eq_true.mp hall) e he
  simp [hdisj e this]

/-- C7: after `buffer::create` returns, the wrapper's `id`, `count` and `data`
never change: any number of `bind` operations leaves all three fields at their
creation values, and every `bind` re-uploads the stored data via
`glBufferData`. -/
theorem claim_C7 (target n k : Nat) (d : List ℚ) :
    (buffer.bindN target k (buffer.create n d).1).id = n ∧
    (buffer.bindN target k (buffer.create n d).1).count = d.length ∧
    (buffer.bindN target k (buffer.create n d).1).data = d ∧
    (buffer.bindBuf target (buffer.bindN target k (buffer.create n d).1)).2
      = [Ev.bindBuffer target n, Ev.bufferData target d.length d] := by
  have hb : ∀ j (b : buffer), buffer.bindN target j b = b := by
    intro j
    induction j with
    | zero => intro b; rfl
    | succ m ih => intro b; simpa [buffer.bindN, buffer.bindBuf] using ih b
  simp [hb, buffer.create, buffer.bindBuf]

/-- C8: every call to `shader_pipeline::check` empties the `shaders` vector
before returning (the guard at main.cpp line 232 fires on both the failure and
the success path); consequently a second call inspects no shader's compile
status (no `glGetShaderiv` in its events) and can return `true` even though the
first call returned `false` because a shader had failed to compile. -/
theorem claim_C8 :
    (∀ p : shader_pipeline, (shader_pipeline.check p).2.1.shaders = []) ∧
    (shader_pipeline.check pipeBadVertex).1 = false ∧
    (shader_pipeline.check (shader_pipeline.check pipeBadVertex).2.1).1 = true ∧
    ((shader_pipeline.check (shader_pipeline.check pipeBadVertex).2.1).2.2).countP
      isGetShaderiv = 0 := by
  refine ⟨?_, by decide, by decide, by decide⟩
  intro p
  by_cases h : (anyShaderFails p.shaders).1 <;>
    simp [shader_pipeline.check, h]

/-- C5 fails as stated: the loop body performs one operation beyond the claimed
sequence — after the draw call the vertex array is unbound — so the iteration
trace is not the claimed list, at the concrete shape built by `main`. -/
theorem claim_C5_counterexample :
    (loop_body envIdle 1 9 4 ⟨false, 0⟩).2 ≠ specIterationC5 false 1 9 4 ∧
    Ev.bindVertexArray 0 ∈ (loop_body envIdle 1 9 4 ⟨false, 0⟩).2 ∧
    Ev.bindVertexArray 0 ∉ specIterationC5 false 1 9 4 := by
  refine ⟨fun h => ?_, by decide, by decide⟩
  have hl := congrArg List.length h
  simp [loop_body, process_input, clear_color_buffer, shape_draw,
    specIterationC5, envIdle] at hl

/-- C5 amended: every iteration of the render loop performs exactly, in order:
poll input (setting the close flag when escape is pressed), clear the color
buffer to the fixed color (0.2, 0.3, 0.3, 1.0), bind the program, bind the
vertex array, issue one draw call, unbind the vertex array, swap buffers, poll
OS events — and nothing else. -/
theorem claim_C5_amended (env : Env) (vaId vaCount pid : Nat) (s : RS) :
    (loop_body env vaId vaCount pid s).2
      = amendedIterationC5 (env.escPressed s.frame) vaId vaCount pid := by
  cases h : env.escPressed s.frame <;>
    simp [loop_body, process_input, clear_color_buffer, shape_draw,
      amendedIterationC5, h]

theorem render_loop_frame_lt (env : Env) (a b c : Nat) :
    ∀ n s, (render_loop env a b c n s).1.frame < s.frame + n →
      (render_loop env a b c n s).1.close = true := by
  intro n
  induction n with
  | zero => intro s h; simp [render_loop] at h
  | succ k ih =>
    intro s h
    by_cases hc : s.close
    · rw [render_loop_stop env a b c k s hc]; exact hc
    · rw [render_loop_go env a b c k s (by simpa using hc)] at h ⊢
      dsimp only at h ⊢
      have hfr : (loop_body env a b c s).1.frame = s.frame + 1 := by
        simp [loop_body, process_input]
      exact ih (loop_body env a b c s).1 (by omega)

/-- C6: the render loop runs exactly while the close flag is unset.  With the
flag set it performs no iteration; with it unset the iteration runs and reads
the escape key; the body sets the flag exactly when it was already set, escape
is pressed, or the OS delivered a close event; and a run of the loop that
stopped before exhausting its fuel (fewer frames than fuel) stopped with the
flag set — never before. -/
theorem claim_C6 (env : Env) (a b c n : Nat) (s : RS) :
    (s.close = true → render_loop env a b c (n + 1) s = (s, [Ev.queryShouldClose true])) ∧
    (s.close = false →
      Ev.getKey (env.escPressed s.frame) ∈ (render_loop env a b c (n + 1) s).2) ∧
    ((loop_body env a b c s).1.close
      = (s.close || env.escPressed s.frame || env.osClose s.frame)) ∧
    ((render_loop env a b c n s).1.frame < s.frame + n →
      (render_loop env a b c n s).1.close = true) := by
  refine ⟨fun h => render_loop_stop env a b c n s h, fun h => ?_, ?_, ?_⟩
  · rw [render_loop_go env a b c n s h]
    have : Ev.getKey (env.escPressed s.frame) ∈ (loop_body env a b c s).2 := by
      simp [loop_body, process_input]
    simp only [List.mem_cons, List.mem_append]
    exact Or.inr (Or.inl this)
  · simp [loop_body, process_input, Bool.or_assoc]
  · exact render_loop_frame_lt env a b c n s

/-- Witness for C6 at concrete inputs: with the flag set the loop returns at
once; with escape pressed on frame 0 the loop reads the key and stops (after
one frame, short of its fuel) with the flag set. -/
theorem claim_C6_witness :
    render_loop envAllOk 1 9 4 4 ⟨true, 0⟩ = (⟨true, 0⟩, [Ev.queryShouldClose true]) ∧
    Ev.getKey true ∈ (render_loop envAllOk 1 9 4 4 ⟨false, 0⟩).2 ∧
    (render_loop envAllOk 1 9 4 3 ⟨false, 0⟩).1.close = true := by
  refine ⟨(claim_C6 envAllOk 1 9 4 3 ⟨true, 0⟩).1 rfl, ?_, ?_⟩
  · exact (claim_C6 envAllOk 1 9 4 3 ⟨false, 0⟩).2.1 rfl
  · exact (claim_C6 envAllOk 1 9 4 3 ⟨false, 0⟩).2.2.2 (by decide)

/-- C10: the close flag is monotone.  The body only ever ORs the flag with the
inputs (nothing clears it); once the flag is set the loop runs zero further
iterations and returns its state unchanged; and if the flag becomes set during
an iteration, the loop finishes exactly that iteration and terminates. -/
theorem claim_C10 (env : Env) (a b c n : Nat) (s : RS) :
    (s.close = true → (loop_body env a b c s).1.close = true) ∧
    ((loop_body env a b c s).1.close
      = (s.close || env.escPressed s.frame || env.osClose s.frame)) ∧
    (s.close = true → (render_loop env a b c n s).1 = s ∧
      (render_loop env a b c n s).2
        = if n = 0 then [] else [Ev.queryShouldClose true]) ∧
    (s.close = false → (loop_body env a b c s).1.close = true →
      render_loop env a b c (n + 2) s
        = ((loop_body env a b c s).1,
           Ev.queryShouldClose false ::
             ((loop_body env a b c s).2 ++ [Ev.queryShouldClose true]))) := by
  have hbody : (loop_body env a b c s).1.close
      = (s.close || env.escPressed s.frame || env.osClose s.frame) := by
    simp [loop_body, process_input, Bool.or_assoc]
  refine ⟨fun h => by simp [hbody, h], hbody, fun h => ?_, fun h0 h1 => ?_⟩
  · cases n with
    | zero => exact ⟨rfl, rfl⟩
    | succ k => rw [render_loop_stop env a b c k s h]; exact ⟨rfl, rfl⟩
  · rw [render_loop_go env a b c (n + 1) s h0,
      render_loop_stop env a b c n (loop_body env a b c s).1 h1]

/-- Witness for C10 at concrete inputs: flag already set — loop returns its
state unchanged; flag set during the iteration (escape on frame 0) — exactly
one iteration then exit. -/
theorem claim_C10_witness :
    (loop_body envAllOk 1 9 4 ⟨true, 5⟩).1.close = true ∧
    (render_loop envAllOk 1 9 4 7 ⟨true, 2⟩).1 = ⟨true, 2⟩ ∧
    render_loop envAllOk 1 9 4 3 ⟨false, 0⟩
      = ((loop_body envAllOk 1 9 4 ⟨false, 0⟩).1,
         Ev.queryShouldClose false ::
           ((loop_body envAllOk 1 9 4 ⟨false, 0⟩).2 ++ [Ev.queryShouldClose true])) := by
  refine ⟨(claim_C10 envAllOk 1 9 4 7 ⟨true, 5⟩).1 rfl,
    ((claim_C10 envAllOk 1 9 4 7 ⟨true, 2⟩).2.2.1 rfl).1,
    (claim_C10 envAllOk 1 9 4 1 ⟨false, 0⟩).2.2.2 rfl (by decide)⟩

/-- C1 fails as stated for `src/main.cpp`: the window-creation failure stage
and the loader failure stage exit with the same code -1, so the stages' codes
are not distinct from each other. -/
theorem claim_C1_counterexample :
    envNoWindow.createWindowOk = false ∧ envNoWindow.gladOk = true ∧
    envNoGlad.createWindowOk = true ∧ envNoGlad.gladOk = false ∧
    (mainCpp envNoWindow 3).exit = -1 ∧ (mainCpp envNoGlad 3).exit = -1 ∧
    (mainCpp envNoWindow 3).entered = false ∧
    (mainCpp envNoGlad 3).entered = false := by
  decide

/-- C1 amended: on every bootstrap failure `main` exits with a negative code
without entering the render loop, and with every stage succeeding it enters the
loop and returns 0; in part_001 the four failure stages exit with the distinct
codes -1 (glfw), -2 (window), -3 (loader) and -4 (shader/program), while in
main.cpp every failure stage exits with the same code -1. -/
theorem claim_C1_amended (env : Env) (fuel : Nat) :
    (¬ envBootstrapOk env →
      (mainCpp env fuel).exit = -1 ∧ (mainCpp env fuel).entered = false ∧
      (main001 env fuel).exit < 0 ∧ (main001 env fuel).entered = false) ∧
    (envBootstrapOk env →
      (mainCpp env fuel).exit = 0 ∧ (mainCpp env fuel).entered = true ∧
      (main001 env fuel).exit = 0 ∧ (main001 env fuel).entered = true) ∧
    (env.glfwInitOk = false → (main001 env fuel).exit = -1) ∧
    (env.glfwInitOk = true → env.createWindowOk = false →
      (main001 env fuel).exit = -2) ∧
    (env.glfwInitOk = true → env.createWindowOk = true → env.gladOk = false →
      (main001 env fuel).exit = -3) ∧
    (env.glfwInitOk = true → env.createWindowOk = true → env.gladOk = true →
      ¬(env.vertexCompileOk = true ∧ env.fragmentCompileOk = true ∧ env.linkOk = true) →
      (main001 env fuel).exit = -4) := by
  obtain ⟨g, w, gl, v, f, l, esc, os⟩ := env
  cases g <;> cases w <;> cases gl <;> cases v <;> cases f <;> cases l <;>
    simp [mainCpp, main001, envBootstrapOk, triangle.create, triangle_shader.create,
      shader_pipeline.create, shader.create, vertex_array.create, buffer.create,
      buffer.bindBuf, shader_pipeline.check, anyShaderFails, shader.check,
      triangleShader001, shaderCreate001]

/-- Witness for C1 amended, at one concrete oracle per stage. -/
theorem claim_C1_amended_witness :
    (mainCpp envAllOk 2).exit = 0 ∧ (main001 envAllOk 2).exit = 0 ∧
    (mainCpp envNoVertex 2).exit = -1 ∧
    (main001 envNoGlfw 2).exit = -1 ∧ (main001 envNoWindow 2).exit = -2 ∧
    (main001 envNoGlad 2).exit = -3 ∧ (main001 envNoVertex 2).exit = -4 :=
  ⟨((claim_C1_amended envAllOk 2).2.1 (by decide)).1,
   ((claim_C1_amended envAllOk 2).2.1 (by decide)).2.2.1,
   ((claim_C1_amended envNoVertex 2).1 (by decide)).1,
   (claim_C1_amended envNoGlfw 2).2.2.1 rfl,
   (claim_C1_amended envNoWindow 2).2.2.2.1 rfl rfl,
   (claim_C1_amended envNoGlad 2).2.2.2.2.1 rfl rfl rfl,
   (claim_C1_amended envNoVertex 2).2.2.2.2.2 rfl rfl rfl (by decide)⟩

/-- C2 fails as stated for `src/main.cpp`: when `glfwInit` fails, no
diagnostic for that stage is printed and `main` does not return early — window
creation is still attempted (the only stderr line is the window-stage one). -/
theorem claim_C2_counterexample :
    Ev.createWindow false ∈ (mainCpp envNoGlfw 3).trace ∧
    cerrMsgs (mainCpp envNoGlfw 3).trace = ["Failed to create GLFW window"] ∧
    (mainCpp envNoGlfw 3).exit = -1 := by
  refine ⟨by decide, by decide, by decide⟩

/-- C2 amended: in part_001 a failed `glfwInit` prints "Failed to instantiate
glfw" and `main` returns -1 before any window creation is attempted; in
main.cpp a failed `glfwInit` prints nothing at that stage, window creation is
still attempted (and fails), and startup aborts at the window stage with
code -1. -/
theorem claim_C2_amended (env : Env) (fuel : Nat) (h : env.glfwInitOk = false) :
    (main001 env fuel).exit = -1 ∧ (main001 env fuel).entered = false ∧
    cerrMsgs (main001 env fuel).trace = ["Failed to instantiate glfw"] ∧
    (∀ ok, Ev.createWindow ok ∉ (main001 env fuel).trace) ∧
    (mainCpp env fuel).exit = -1 ∧ (mainCpp env fuel).entered = false ∧
    Ev.createWindow false ∈ (mainCpp env fuel).trace ∧
    cerrMsgs (mainCpp env fuel).trace = ["Failed to create GLFW window"] := by
  obtain ⟨g, w, gl, v, f, l, esc, os⟩ := env
  subst h
  simp [main001, mainCpp, MainRes.trace, cerrMsgs]

/-- Witness for C2 amended at the concrete failed-`glfwInit` oracle. -/
theorem claim_C2_amended_witness :
    (main001 envNoGlfw 3).exit = -1 ∧
    cerrMsgs (main001 envNoGlfw 3).trace = ["Failed to instantiate glfw"] ∧
    Ev.createWindow false ∈ (mainCpp envNoGlfw 3).trace :=
  ⟨(claim_C2_amended envNoGlfw 3 rfl).1,
   (claim_C2_amended envNoGlfw 3 rfl).2.2.1,
   (claim_C2_amended envNoGlfw 3 rfl).2.2.2.2.2.2.1⟩

/-- C4: in every execution that reaches the render loop, the shape passed to
it holds a program whose driver-reported statuses were all good — both shaders
compiled and the program status read back by the validity check was true — and
the vertex array created by the factory (handle 1, generated before the loop),
so no partially-initialized resource is ever drawn.  This holds for both
main.cpp (where `shape.check()` gates the loop) and part_001 (where
construction returns `nullopt` on any failure). -/
theorem claim_C4 (env : Env) (fuel : Nat) :
    ((mainCpp env fuel).entered = true →
      env.vertexCompileOk = true ∧ env.fragmentCompileOk = true ∧ env.linkOk = true ∧
      Ev.genVertexArrays 1 ∈ (mainCpp env fuel).pre) ∧
    ((main001 env fuel).entered = true →
      env.vertexCompileOk = true ∧ env.fragmentCompileOk = true ∧ env.linkOk = true ∧
      Ev.genVertexArrays 1 ∈ (main001 env fuel).pre) := by
  obtain ⟨g, w, gl, v, f, l, esc, os⟩ := env
  cases g <;> cases w <;> cases gl <;> cases v <;> cases f <;> cases l <;>
    simp [mainCpp, main001, triangle.create, triangle_shader.create,
      shader_pipeline.create, shader.create, vertex_array.create, buffer.create,
      buffer.bindBuf, shader_pipeline.check, anyShaderFails, shader.check,
      triangleShader001, shaderCreate001]

/-- Witness for C4 at the all-good oracle, where the loop is entered. -/
theorem claim_C4_witness :
    envAllOk.vertexCompileOk = true ∧ envAllOk.fragmentCompileOk = true ∧
    envAllOk.linkOk = true ∧ Ev.genVertexArrays 1 ∈ (mainCpp envAllOk 1).pre :=
  (claim_C4 envAllOk 1).1 (by decide)

/-- C9: whenever main.cpp's `main` reaches the render loop, the framebuffer
callback was registered and then immediately unregistered before the loop (the
`viewport::initialise(window)` result on line 368 is a discarded temporary, so
its destructor runs at the end of that statement), and no iteration of the
loop touches the callback registration — so throughout the entire render loop
no framebuffer-resize callback is installed and window resizes never update
the viewport. -/
theorem claim_C9 (env : Env) (fuel : Nat) (h : (mainCpp env fuel).entered = true) :
    fbArgs (mainCpp env fuel).pre = [true, false] ∧
    (mainCpp env fuel).loopEvs.countP isSetFbCb = 0 := by
  obtain ⟨g, w, gl, v, f, l, esc, os⟩ := env
  have hd : ∀ e, isLoopEv e = true → isSetFbCb e = false := by
    intro e he; cases e <;> simp_all [isLoopEv, isSetFbCb]
  cases g <;> cases w <;> cases gl <;> cases v <;> cases f <;> cases l <;>
    simp_all [mainCpp, triangle.create, triangle_shader.create,
      shader_pipeline.create, shader.create, vertex_array.create, buffer.create,
      buffer.bindBuf, shader_pipeline.check, anyShaderFails, shader.check, fbArgs]
  exact fun a ha =>
    hd a (List.all_eq_true.mp (render_loop_events _ _ _ _ _ _) a ha)

/-- Witness for C9 at the all-good oracle. -/
theorem claim_C9_witness :
    fbArgs (mainCpp envAllOk 2).pre = [true, false] ∧
    (mainCpp envAllOk 2).loopEvs.countP isSetFbCb = 0 :=
  claim_C9 envAllOk 2 (by decide)

/-- C3 fails as stated: in a complete clean run of main.cpp (all stages
succeed, escape pressed on the first frame, loop entered and exited), the
buffer handle is allocated by `buffer::create` (`glGenBuffers` once) but
`glDeleteBuffers` is never called — the deletion happens zero times, not
exactly once (the `buffer` wrapper, main.cpp lines 112-131, has no
destructor). -/
theorem claim_C3_counterexample :
    (mainCpp envAllOk 2).trace.countP isGenBuffers = 1 ∧
    (mainCpp envAllOk 2).trace.countP isDeleteBuffers = 0 := by
  refine ⟨by decide, by decide⟩

theorem loopEv_not_resource (e : Ev) (he : isLoopEv e = true) :
    isDeleteBuffers e = false ∧ isDeleteVertexArrays e = false ∧
    isDeleteProgram e = false ∧ isGenBuffers e = false ∧
    isGenVertexArrays e = false ∧ isCreateProgram e = false ∧
    isCreateShader e = false ∧ (∀ k, isDeleteShaderId k e = false) := by
  cases e <;>
    simp_all [isLoopEv, isDeleteBuffers, isDeleteVertexArrays, isDeleteProgram,
      isGenBuffers, isGenVertexArrays, isCreateProgram, isCreateShader,
      isDeleteShaderId]

theorem mainCpp_ok_run (esc os : Nat → Bool) (fuel : Nat) :
    mainCpp ⟨true, true, true, true, true, true, esc, os⟩ fuel
      = ⟨0, true, preOkCpp,
         (render_loop ⟨true, true, true, true, true, true, esc, os⟩ 1 9 4 fuel
           ⟨false, 0⟩).2,
         [Ev.glfwTerminateCall]⟩ := rfl

/-- C3 amended: only the `shader` wrapper's destructor performs a deletion
call.  In main.cpp, over any execution, `glDeleteBuffers`,
`glDeleteVertexArrays` and `glDeleteProgram` are never called (those wrappers
have no destructor, so those handles are never released); in a complete run
with every stage succeeding, the two shader handles (2 and 3) are each deleted
exactly once — when `shader_pipeline::check` clears its `unique_ptr` vector —
while the buffer, vertex-array and program handles are created and never
deleted. -/
theorem claim_C3_amended (env : Env) (fuel : Nat) :
    ((mainCpp env fuel).trace.countP isDeleteBuffers = 0 ∧
     (mainCpp env fuel).trace.countP isDeleteVertexArrays = 0 ∧
     (mainCpp env fuel).trace.countP isDeleteProgram = 0) ∧
    (envBootstrapOk env →
      (mainCpp env fuel).trace.countP isGenBuffers = 1 ∧
      (mainCpp env fuel).trace.countP isGenVertexArrays = 1 ∧
      (mainCpp env fuel).trace.countP isCreateProgram = 1 ∧
      (mainCpp env fuel).trace.countP isCreateShader = 2 ∧
      (mainCpp env fuel).trace.countP (isDeleteShaderId 2) = 1 ∧
      (mainCpp env fuel).trace.countP (isDeleteShaderId 3) = 1) := by
  obtain ⟨g, w, gl, v, f, l, esc, os⟩ := env
  have hzero : ∀ (p : Ev → Bool), (∀ e, isLoopEv e = true → p e = false) →
      ∀ a b c n s,
        ((render_loop ⟨g, w, gl, v, f, l, esc, os⟩ a b c n s).2).countP p = 0 :=
    fun p hp a b c n s =>
      countP_zero_of_loop hp (render_loop_events ⟨g, w, gl, v, f, l, esc, os⟩ a b c n s)
  have h1 := hzero isDeleteBuffers fun e he => (loopEv_not_resource e he).1
  have h2 := hzero isDeleteVertexArrays fun e he => (loopEv_not_resource e he).2.1
  have h3 := hzero isDeleteProgram fun e he => (loopEv_not_resource e he).2.2.1
  have h4 := hzero isGenBuffers fun e he => (loopEv_not_resource e he).2.2.2.1
  have h5 := hzero isGenVertexArrays fun e he => (loopEv_not_resource e he).2.2.2.2.1
  have h6 := hzero isCreateProgram fun e he => (loopEv_not_resource e he).2.2.2.2.2.1
  have h7 := hzero isCreateShader fun e he => (loopEv_not_resource e he).2.2.2.2.2.2.1
  have h8 := hzero (isDeleteShaderId 2)
    fun e he => (loopEv_not_resource e he).2.2.2.2.2.2.2 2
  have h9 := hzero (isDeleteShaderId 3)
    fun e he => (loopEv_not_resource e he).2.2.2.2.2.2.2 3
  constructor
  · cases g <;> cases w <;> cases gl <;> cases v <;> cases f <;> cases l <;>
      first
        | exact ⟨rfl, rfl, rfl⟩
        | (refine ⟨?_, ?_, ?_⟩ <;>
            · rw [mainCpp_ok_run esc os fuel]
              simp only [MainRes.trace, List.countP_append, h1, h2, h3]
              rfl)
  · rintro ⟨hg, hw, hgl, hv, hf, hl⟩
    simp only at hg hw hgl hv hf hl
    subst hg; subst hw; subst hgl; subst hv; subst hf; subst hl
    refine ⟨?_, ?_, ?_, ?_, ?_, ?_⟩ <;>
      · rw [mainCpp_ok_run esc os fuel]
        simp only [MainRes.trace, List.countP_append, h4, h5, h6, h7, h8, h9]
        rfl

/-- Witness for C3 amended at the all-good oracle with a complete run. -/
theorem claim_C3_amended_witness :
    (mainCpp envAllOk 2).trace.countP isDeleteVertexArrays = 0 ∧
    (mainCpp envAllOk 2).trace.countP isGenVertexArrays = 1 ∧
    (mainCpp envAllOk 2).trace.countP isCreateProgram = 1 ∧
    (mainCpp envAllOk 2).trace.countP isDeleteProgram = 0 ∧
    (mainCpp envAllOk 2).trace.countP (isDeleteShaderId 2) = 1 ∧
    (mainCpp envAllOk 2).trace.countP (isDeleteShaderId 3) = 1 :=
  ⟨(claim_C3_amended envAllOk 2).1.2.1,
   ((claim_C3_amended envAllOk 2).2 (by decide)).2.1,
   ((claim_C3_amended envAllOk 2).2 (by decide)).2.2.1,
   (claim_C3_amended envAllOk 2).1.2.2,
   ((claim_C3_amended envAllOk 2).2 (by decide)).2.2.2.2.1,
   ((claim_C3_amended envAllOk 2).2 (by decide)).2.2.2.2.2⟩

end LearnGL
